import Mathlib

/-!
# Verification of `bentoml/handlers/tensorflow_tensor_handler.py`

Shallow embedding of the `TensorflowTensorHandler` request-batching adapter:
the batch pipeline `handle_batch_request`, the single-request pipeline
(`_handle_raw_str`, `handle_request`, `handle_cli`, `handle_aws_lambda_event`),
and the collaborators they call.

Collaborators whose source is not part of the provided tree
(`concat_list`, the `NestedConverter`/`tf_b64_2_bytes` decoder, the output
adapter's formatting functions) are modelled from the specification; each such
definition carries a doc comment starting with `Modelled from the spec:`.

Python-level values parsed from JSON are modelled by the inductive `JValue`;
Python exceptions surfacing from the embedded code are the inductive `PyError`;
fallible code returns `Except`.
-/

set_option autoImplicit false

namespace TFHandler

/-- A JSON-decoded Python value: `None`, booleans, numbers, strings,
byte strings (produced only by the base64 decoder), lists and dicts. -/
inductive JValue where
  | null
  | bool (b : Bool)
  | num (n : Int)
  | str (s : String)
  | bytes (s : String)
  | arr (elems : List JValue)
  | obj (fields : List (String × JValue))
deriving Repr

/-- `v is None` in Python: `JValue.null` is the image of Python `None`. -/
def isNone : JValue → Bool
  | .null => true
  | _ => false

/-- Python truthiness of a `JValue` (`bool(v)`): `None`/`False`/`0`/empty
string/empty list/empty dict are falsy, everything else is truthy. -/
def truthy : JValue → Bool
  | .null => false
  | .bool b => b
  | .num n => n != 0
  | .str s => !s.isEmpty
  | .bytes s => !s.isEmpty
  | .arr xs => !xs.isEmpty
  | .obj fs => !fs.isEmpty

/-- `dict.get(k)` on the field list of a JSON object: the first value bound to
`k`, or `None` when the key is absent (JSON `null` and an absent key are both
`None` in Python, so both map to `JValue.null`). -/
def objGet (fields : List (String × JValue)) (k : String) : JValue :=
  match fields.find? (fun p => p.1 == k) with
  | some p => p.2
  | none => .null

/-- Python exceptions that the embedded handler code can raise. -/
inductive PyError where
  | jsonDecodeError
  | attributeError (msg : String)
  | notImplementedError (msg : String)
  | unboundLocalError (varName : String)
  | keyError (key : String)
deriving Repr, DecidableEq

/-- `traceback.format_exc()` rendered for a `PyError`. -/
def pyTraceback : PyError → String
  | .jsonDecodeError => "json.decoder.JSONDecodeError"
  | .attributeError m => "AttributeError: " ++ m
  | .notImplementedError m => "NotImplementedError: " ++ m
  | .unboundLocalError v =>
      "UnboundLocalError: local variable " ++ v ++ " referenced before assignment"
  | .keyError k => "KeyError: " ++ k

/-- `v.get(k)` in Python: succeeds with the field (or `None`) when `v` is a
dict, raises `AttributeError` otherwise (e.g. when the parsed JSON document is
a list or a scalar). -/
def pyGet (v : JValue) (k : String) : Except PyError JValue :=
  match v with
  | .obj fs => .ok (objGet fs k)
  | _ => .error (.attributeError ("object has no attribute " ++ "get " ++ k))

mutual
/-- Modelled from the spec: the Nested Value Decoder
(`decode_b64_if_needed = NestedConverter(tf_b64_2_bytes)` from
`bentoml.handlers.utils`, whose source is not in the provided tree).
It recursively walks mappings and sequences and replaces every tagged object
carrying a base64-style string under the marker key `b64` with its decoded
byte form, passing all other scalars through unchanged. -/
def decode_b64_if_needed : JValue → JValue
  | .null => .null
  | .bool b => .bool b
  | .num n => .num n
  | .str s => .str s
  | .bytes s => .bytes s
  | .arr xs => .arr (decodeB64List xs)
  | .obj fs =>
      match objGet fs "b64" with
      | .str s => .bytes s
      | _ => .obj (decodeB64Fields fs)

/-- Elementwise decoder over a JSON sequence. -/
def decodeB64List : List JValue → List JValue
  | [] => []
  | x :: xs => decode_b64_if_needed x :: decodeB64List xs

/-- Valuewise decoder over the fields of a JSON mapping (keys preserved). -/
def decodeB64Fields : List (String × JValue) → List (String × JValue)
  | [] => []
  | (k, v) :: fs => (k, decode_b64_if_needed v) :: decodeB64Fields fs
end

/-- An abstract TensorFlow tensor: `tf.constant` applied to a JSON-decoded
value. The tensor library is an external collaborator, so the tensor just
records the value it was built from. -/
structure TFTensor where
  val : JValue
deriving Repr

/-- `tf.constant`. -/
def tf_constant (v : JValue) : TFTensor := ⟨v⟩

/-- The result of parsing a request body: either a decode failure
(`json.JSONDecodeError` / `UnicodeDecodeError`) or the parsed value.
JSON parsing itself is the standard library's, hence modelled abstractly
by its outcome. -/
inductive BodyParse where
  | decodeError
  | parsed (v : JValue)
deriving Repr

/-- `SimpleRequest` from `bentoml.marshal.utils`: body (modelled by its parse
outcome) plus `formated_headers`, a lowercase-keyed header mapping. -/
structure SimpleRequest where
  data : BodyParse
  formated_headers : List (String × String)
deriving Repr

/-- `SimpleResponse(status, headers, data)` from `bentoml.marshal.utils`. -/
structure SimpleResponse where
  status : Nat
  headers : Option (List (String × String))
  data : String
deriving Repr, DecidableEq

/-- `str.lower()`: ASCII lowercasing, as a structural character map. -/
def strLower (s : String) : String := ⟨s.data.map Char.toLower⟩

/-- Header lookup returning `none` when the key is absent. -/
def headersFind? (hs : List (String × String)) (k : String) : Option String :=
  match hs.find? (fun p => p.1 == k) with
  | some p => some p.2
  | none => none

/-- `headers.get(k, d)`: lookup with a default. -/
def headersGet (hs : List (String × String)) (k d : String) : String :=
  match headersFind? hs k with
  | some v => v
  | none => d

/-- The handler configuration the batch pipeline reads:
`self.config.get("is_batch_input")` and `self._BATCH_REQUEST_HEADER`. -/
structure HandlerConfig where
  is_batch_input : Bool
  batch_request_header : String
deriving Repr, DecidableEq

/-- `bad_resp = SimpleResponse(400, None, "input format error")`. -/
def bad_resp : SimpleResponse := ⟨400, none, "input format error"⟩

/-- Outcome of one iteration of the `for i, request in enumerate(requests)`
loop body of `handle_batch_request`, i.e. which slots it writes:
`good v` sets `instances_list[i] = v`; `notImplemented` sets
`responses[i]` to the 501 response; `parseError` is the caught
`JSONDecodeError`/`UnicodeDecodeError` (`pass`); `internalError e` is the
broad `except Exception` arm setting `responses[i]` to the 500 response;
`skip` leaves every slot at its initial value. -/
inductive ReqOutcome where
  | good (instances : JValue)
  | notImplemented
  | parseError
  | internalError (e : PyError)
  | skip
deriving Repr

/-- The body of the per-request loop of `handle_batch_request` after the
batch flag has been computed and `json.loads` has succeeded with `v`
(lines 125-136 of the source). -/
def tryHandleBody (v : JValue) : ReqOutcome :=
  match pyGet v "instances" with
  | .error e => .internalError e
  | .ok instances0 =>
    if !(isNone instances0) then
      -- `instances = parsed_json.get("instances")` again; `get` is pure so it
      -- returns `instances0`, and the guard `if instances is None: continue`
      -- of the source is the (dead) first branch below.
      if isNone instances0 then .skip
      else .good (decode_b64_if_needed instances0)
    else
      match pyGet v "inputs" with
      | .error e => .internalError e
      | .ok inputs => if truthy inputs then .notImplemented else .skip

/-- One iteration of the per-request loop of `handle_batch_request`: computes
`batch_flags[i]` from the override header (defaulting to the
`is_batch_input` config) and classifies the request body. -/
def processRequest (cfg : HandlerConfig) (request : SimpleRequest) : Bool × ReqOutcome :=
  let flag :=
    headersGet request.formated_headers (strLower cfg.batch_request_header)
      (if cfg.is_batch_input then "true" else "false") == "true"
  match request.data with
  | .decodeError => (flag, .parseError)
  | .parsed v => (flag, tryHandleBody v)

/-- The value `instances_list[i]` holds after the loop iteration with the
given outcome (`none` = the initial `None`). -/
def outcomeInstances : ReqOutcome → Option JValue
  | .good v => some v
  | _ => none

/-- The value `responses[i]` holds after the loop iteration with the given
outcome (the initial `bad_resp` unless overwritten with the 501 or 500
response). -/
def outcomeResponse : ReqOutcome → SimpleResponse
  | .notImplemented => ⟨501, none, "Column format " ++ "inputs" ++ " not implemented"⟩
  | .internalError e => ⟨500, none, "Internal Server Error: " ++ pyTraceback e⟩
  | _ => bad_resp

/-- The per-item contributions a request makes to the merged flat sequence
when its `BatchFlag` is true: the elements of its instance list. The payload
format declares `instances` to be an array; a non-array value is a single
item. -/
def jElems : JValue → List JValue
  | .arr xs => xs
  | v => [v]

/-- Modelled from the spec: the Slice-Tracking Merger
(`concat_list` from `bentoml.handlers.utils`, whose source is not in the
provided tree), on the zipped (instances, flag) pairs with a running offset.
A request flagged as batched contributes each of its instances individually;
a request not flagged as batched contributes its entire instance value as one
single flat-sequence element; an absent entry contributes nothing and carries
no slice (`none`), which is how the Demultiplexer recognizes a request that
was marked bad. -/
def concatListGo : List (Option JValue × Bool) → Nat → List JValue × List (Option (Nat × Nat))
  | [], _ => ([], [])
  | (none, _) :: rest, off =>
      let r := concatListGo rest off
      (r.1, none :: r.2)
  | (some v, flag) :: rest, off =>
      let contrib := if flag then jElems v else [v]
      let r := concatListGo rest (off + contrib.length)
      (contrib ++ r.1, some (off, off + contrib.length) :: r.2)

/-- Modelled from the spec: the Slice-Tracking Merger entry point
(`concat_list(instances_list, batch_flags=batch_flags)`): returns the merged
flat sequence together with one optional `SliceRange` per request, in request
order. -/
def concat_list (lst : List (Option JValue)) (batch_flags : List Bool) :
    List JValue × List (Option (Nat × Nat)) :=
  concatListGo (lst.zip batch_flags) 0

/-- Slicing the combined result along its outer dimension:
`result[a:b]` on the tensor's value. -/
def tensorSlice (t : TFTensor) (a b : Nat) : JValue :=
  match t.val with
  | .arr xs => .arr ((xs.drop a).take (b - a))
  | v => v

/-- Modelled from the spec: one step of the Result Demultiplexer. A request
whose slice is absent was marked bad before invocation and receives its
recorded fallback verbatim; otherwise the combined result is sliced with the
request's `SliceRange` and formatted into a success response. -/
def demuxOne (merged_result : TFTensor) : Option (Nat × Nat) × SimpleResponse → SimpleResponse
  | (none, fallback) => fallback
  | (some (a, b), _) => ⟨200, none, reprStr (tensorSlice merged_result a b)⟩

/-- Modelled from the spec: the Result Demultiplexer
(`self.output_adapter.to_batch_response(merged_result, slices, fallbacks,
requests)`, whose source is not in the provided tree): emits one response per
(slice, fallback) slot, in request order. -/
def to_batch_response (merged_result : TFTensor) (slices : List (Option (Nat × Nat)))
    (fallbacks : List SimpleResponse) (_requests : List SimpleRequest) : List SimpleResponse :=
  (slices.zip fallbacks).map (demuxOne merged_result)

/-- The observable outcome of one `handle_batch_request` call: the response
list it returns, plus the invocation trace of the downstream computation
`func` (the arguments it was applied to, in order). -/
structure BatchCallResult where
  responses : List SimpleResponse
  funcCalls : List TFTensor
deriving Repr

/-- `handle_batch_request(self, requests, func)`: per-request slot arrays
(`instances_list`, `responses`, `batch_flags`) filled by the loop, then
`concat_list`, then `tf.constant` on the merged instances, then exactly one
call of `func`, then the Demultiplexer. Each loop iteration writes only slot
`i`, so the three slot arrays are maps of `processRequest` over the requests. -/
def handle_batch_request (cfg : HandlerConfig) (requests : List SimpleRequest)
    (func : TFTensor → TFTensor) : BatchCallResult :=
  let processed := requests.map (processRequest cfg)
  let instances_list := processed.map fun p => outcomeInstances p.2
  let responses := processed.map fun p => outcomeResponse p.2
  let batch_flags := processed.map fun p => p.1
  let merged := concat_list instances_list batch_flags
  let parsed_tensor := tf_constant (.arr merged.1)
  let merged_result := func parsed_tensor
  { responses := to_batch_response merged_result merged.2 responses requests
    funcCalls := [parsed_tensor] }

/-! ## The single-request pipeline -/

/-- `_handle_raw_str(self, raw_str, func)`: parse the body, take the
row-oriented `instances` path when `instances` is not `None`, raise
`NotImplementedError` on a truthy column-oriented `inputs`, and otherwise
reach `return func(parsed_tensor)` with the local `parsed_tensor` never
assigned, raising `UnboundLocalError`. -/
def handleRawStr (raw : BodyParse) (func : TFTensor → TFTensor) : Except PyError TFTensor :=
  match raw with
  | .decodeError => .error .jsonDecodeError
  | .parsed parsed_json =>
    match pyGet parsed_json "instances" with
    | .error e => .error e
    | .ok instances0 =>
      if !(isNone instances0) then
        let instances := decode_b64_if_needed instances0
        let parsed_tensor := tf_constant instances
        .ok (func parsed_tensor)
      else
        match pyGet parsed_json "inputs" with
        | .error e => .error e
        | .ok inputs =>
          if truthy inputs then
            .error (.notImplementedError "column format inputs is not implemented")
          else
            .error (.unboundLocalError "parsed_tensor")

/-- An incoming HTTP request for `handle_request`: declared content type and
body (modelled by its utf-8 + JSON parse outcome). -/
structure HTTPRequest where
  content_type : String
  data : BodyParse
deriving Repr

/-- What `handle_request` can raise: the explicit `BadInput` on an
unsupported content type, or an exception propagating out of
`_handle_raw_str`. -/
inductive HandleRequestError where
  | badInput (msg : String)
  | raised (e : PyError)
deriving Repr, DecidableEq

/-- Modelled from the spec: the Output formatter's
`to_response(result, request)` for the single-request HTTP path. -/
def to_response (result : TFTensor) (_request : HTTPRequest) : SimpleResponse :=
  ⟨200, none, reprStr result.val⟩

/-- `handle_request(self, request, func)`: content type gate, then the raw
string pipeline, then the output formatter. -/
def handle_request (request : HTTPRequest) (func : TFTensor → TFTensor) :
    Except HandleRequestError SimpleResponse :=
  if request.content_type = "application/json" then
    match handleRawStr request.data func with
    | .error e => .error (.raised e)
    | .ok result => .ok (to_response result request)
  else
    .error (.badInput
      "Request content-type must be application/json for this BentoService API")

/-- The CLI arguments after `argparse`: the value of the required `--input`
flag (modelled by its parse outcome) and the unknown trailing arguments. -/
structure CLIArgs where
  input : BodyParse
  unknownArgs : List String
deriving Repr

/-- Modelled from the spec: the Output formatter's `to_cli(result,
unknown_args)`. -/
def to_cli (result : TFTensor) (_unknownArgs : List String) : String :=
  reprStr result.val

/-- `handle_cli(self, args, func)`: the raw string pipeline on the `--input`
value, then the CLI output formatter; exceptions propagate. -/
def handle_cli (args : CLIArgs) (func : TFTensor → TFTensor) : Except PyError String :=
  match handleRawStr args.input func with
  | .error e => .error e
  | .ok result => .ok (to_cli result args.unknownArgs)

/-- An AWS lambda event: the `headers` mapping (case-sensitive `get`) and the
`body` (modelled by its parse outcome). -/
structure LambdaEvent where
  headers : List (String × String)
  body : BodyParse
deriving Repr

/-- What `handle_aws_lambda_event` can raise: the explicit
`BentoMLException` on an unsupported content type, or an exception
propagating out of `_handle_raw_str` (a `KeyError` arises when the
unsupported-content-type message indexes a missing `Content-Type` header). -/
inductive LambdaError where
  | bentoMLException (msg : String)
  | raised (e : PyError)
deriving Repr, DecidableEq

/-- Modelled from the spec: the Output formatter's
`to_aws_lambda_event(result, event)`. -/
def to_aws_lambda_event (result : TFTensor) (_event : LambdaEvent) : SimpleResponse :=
  ⟨200, none, reprStr result.val⟩

/-- `handle_aws_lambda_event(self, event, func)`: the condition reads
`event["headers"].get("Content-Type", "")`; the error message indexes
`event["headers"]["Content-Type"]` directly, which raises `KeyError` when the
header is absent. -/
def handle_aws_lambda_event (event : LambdaEvent) (func : TFTensor → TFTensor) :
    Except LambdaError SimpleResponse :=
  if headersGet event.headers "Content-Type" "" = "application/json" then
    match handleRawStr event.body func with
    | .error e => .error (.raised e)
    | .ok result => .ok (to_aws_lambda_event result event)
  else
    match headersFind? event.headers "Content-Type" with
    | some ct =>
        .error (.bentoMLException
          ("BentoML currently does not support Content-Type: " ++ ct ++ " for AWS Lambda"))
    | none => .error (.raised (.keyError "Content-Type"))

/-! ## Specification-level views of the batch pipeline -/

/-- The classification `handle_batch_request` gives request `q`. -/
def batchOutcome (cfg : HandlerConfig) (q : SimpleRequest) : ReqOutcome :=
  (processRequest cfg q).2

/-- The `BatchFlag` `handle_batch_request` computes for request `q`. -/
def batchFlag (cfg : HandlerConfig) (q : SimpleRequest) : Bool :=
  (processRequest cfg q).1

/-- The `instances_list` slot array after the loop. -/
def batchInstancesList (cfg : HandlerConfig) (requests : List SimpleRequest) :
    List (Option JValue) :=
  requests.map fun q => outcomeInstances (batchOutcome cfg q)

/-- The `responses` slot array (the per-request fallbacks) after the loop. -/
def batchFallbacks (cfg : HandlerConfig) (requests : List SimpleRequest) :
    List SimpleResponse :=
  requests.map fun q => outcomeResponse (batchOutcome cfg q)

/-- The `batch_flags` slot array after the loop. -/
def batchFlags (cfg : HandlerConfig) (requests : List SimpleRequest) : List Bool :=
  requests.map (batchFlag cfg)

/-- The merger's output for a batch: merged flat sequence and slices. -/
def batchMerge (cfg : HandlerConfig) (requests : List SimpleRequest) :
    List JValue × List (Option (Nat × Nat)) :=
  concat_list (batchInstancesList cfg requests) (batchFlags cfg requests)

/-- The single combined tensor handed to `func`. -/
def batchTensor (cfg : HandlerConfig) (requests : List SimpleRequest) : TFTensor :=
  tf_constant (.arr (batchMerge cfg requests).1)

/-! ## Concrete fixtures used by witnesses and counterexamples -/

/-- A sample configuration: batch input enabled, the standard override
header name. -/
def cfgW : HandlerConfig := ⟨true, "Mb-Request-Batch"⟩

/-- A request whose body fails to parse (malformed JSON or bad encoding). -/
def reqMalformed : SimpleRequest := ⟨.decodeError, []⟩

/-- A request whose body is the JSON document `\x7b"instances": [1, 2]\x7d`. -/
def reqGood : SimpleRequest :=
  ⟨.parsed (.obj [("instances", .arr [.num 1, .num 2])]), []⟩

/-- A request whose body uses the column format with a truthy value:
`\x7b"inputs": \x7b"x": [1]\x7d\x7d`. -/
def reqInputs : SimpleRequest :=
  ⟨.parsed (.obj [("inputs", .obj [("x", .arr [.num 1])])]), []⟩

/-- A request whose body uses the column format with a falsy value:
`\x7b"inputs": []\x7d` (empty list, no `instances` field). -/
def reqInputsFalsy : SimpleRequest := ⟨.parsed (.obj [("inputs", .arr [])]), []⟩

/-- A request whose body is the JSON array `[1]`: parsing succeeds but the
document is not an object, so `parsed_json.get` raises `AttributeError`. -/
def reqNonObj : SimpleRequest := ⟨.parsed (.arr [.num 1]), []⟩

/-- `handle_batch_request` in terms of the specification-level views: one
`func` call on the combined tensor, demultiplexed against the merger's
slices and the recorded fallbacks. -/
theorem handle_batch_request_eq (cfg : HandlerConfig) (requests : List SimpleRequest)
    (func : TFTensor → TFTensor) :
    handle_batch_request cfg requests func =
      { responses := to_batch_response (func (batchTensor cfg requests))
          (batchMerge cfg requests).2 (batchFallbacks cfg requests) requests
        funcCalls := [batchTensor cfg requests] } := by
  unfold handle_batch_request batchTensor batchMerge batchInstancesList batchFallbacks
    batchFlags batchFlag batchOutcome
  simp only [List.map_map, Function.comp_def]

/-! ## Lemmas about the merger and the demultiplexer -/

theorem concatListGo_snd_length (zl : List (Option JValue × Bool)) (off : Nat) :
    (concatListGo zl off).2.length = zl.length := by
  induction zl generalizing off with
  | nil => rfl
  | cons p rest ih =>
      rcases p with ⟨ov, fl⟩
      cases ov <;> simp [concatListGo, ih]

theorem concatListGo_snd_get?_none (zl : List (Option JValue × Bool)) (off i : Nat)
    (fl : Bool) (h : zl.get? i = some (none, fl)) :
    (concatListGo zl off).2.get? i = some none := by
  induction zl generalizing off i with
  | nil => simp at h
  | cons p rest ih =>
      rcases p with ⟨ov, fl'⟩
      cases i with
      | zero =>
          simp only [List.get?] at h
          obtain ⟨h1, h2⟩ := Prod.mk.injEq .. ▸ Option.some.inj h
          subst h1
          rfl
      | succ i =>
          have h' : rest.get? i = some (none, fl) := h
          cases ov with
          | none => exact ih off i h'
          | some v => exact ih _ i h'

theorem concatListGo_snd_get?_some (zl : List (Option JValue × Bool)) (off i : Nat)
    (v : JValue) (fl : Bool) (h : zl.get? i = some (some v, fl)) :
    ∃ a b : Nat, (concatListGo zl off).2.get? i = some (some (a, b)) := by
  induction zl generalizing off i with
  | nil => simp at h
  | cons p rest ih =>
      rcases p with ⟨ov, fl'⟩
      cases i with
      | zero =>
          simp only [List.get?] at h
          obtain ⟨h1, h2⟩ := Prod.mk.injEq .. ▸ Option.some.inj h
          subst h1
          exact ⟨off, off + (if fl' then jElems v else [v]).length, rfl⟩
      | succ i =>
          have h' : rest.get? i = some (some v, fl) := h
          cases ov with
          | none => exact ih off i h'
          | some w => exact ih _ i h'

theorem concatListGo_all_none (zl : List (Option JValue × Bool)) (off : Nat)
    (h : ∀ p ∈ zl, p.1 = none) :
    concatListGo zl off = ([], zl.map fun _ => (none : Option (Nat × Nat))) := by
  induction zl generalizing off with
  | nil => rfl
  | cons p rest ih =>
      rcases p with ⟨ov, fl⟩
      have hov : ov = none := h (ov, fl) (List.mem_cons_self _ _)
      subst hov
      have := ih off (fun q hq => h q (List.mem_cons_of_mem _ hq))
      simp [concatListGo, this]

theorem to_batch_response_all_none {α : Type} (m : TFTensor) (l : List α)
    (g : α → SimpleResponse) (reqs : List SimpleRequest) :
    to_batch_response m (l.map fun _ => none) (l.map g) reqs = l.map g := by
  unfold to_batch_response
  rw [List.zip_map']
  simp [demuxOne]

theorem get?_zip_of {α β : Type} (l₁ : List α) (l₂ : List β) (i : Nat) (a : α) (b : β)
    (h₁ : l₁.get? i = some a) (h₂ : l₂.get? i = some b) :
    (l₁.zip l₂).get? i = some (a, b) := by
  simp only [List.get?_eq_getElem?] at *
  exact List.getElem?_zip_eq_some.mpr ⟨h₁, h₂⟩

/-- The fallback a loop outcome records never has the success status. -/
theorem outcomeResponse_status_ne_200 (o : ReqOutcome) :
    (outcomeResponse o).status ≠ 200 := by
  cases o <;> simp [outcomeResponse, bad_resp]

theorem isNone_eq_null (v : JValue) (h : isNone v = true) : v = .null := by
  cases v <;> simp [isNone] at h ⊢

/-- The batch flag computed by the loop, for any body. -/
theorem processRequest_fst (cfg : HandlerConfig) (req : SimpleRequest) :
    (processRequest cfg req).1 =
      (headersGet req.formated_headers (strLower cfg.batch_request_header)
        (if cfg.is_batch_input then "true" else "false") == "true") := by
  rcases req with ⟨d, hs⟩
  cases d <;> rfl

/-- The merger's zipped input, as a single map over the requests. -/
theorem batch_zip_eq (cfg : HandlerConfig) (requests : List SimpleRequest) :
    (batchInstancesList cfg requests).zip (batchFlags cfg requests) =
      requests.map fun q => (outcomeInstances (batchOutcome cfg q), batchFlag cfg q) := by
  unfold batchInstancesList batchFlags
  exact List.zip_map' _ _ _

/-- A request that contributed no instances owns no slice of the merged flat
sequence: it is excluded from the merge. -/
theorem batch_slice_none_at (cfg : HandlerConfig) (requests : List SimpleRequest)
    (i : Nat) (r : SimpleRequest) (hr : requests.get? i = some r)
    (hn : outcomeInstances (batchOutcome cfg r) = none) :
    (batchMerge cfg requests).2.get? i = some none := by
  unfold batchMerge concat_list
  rw [batch_zip_eq]
  refine concatListGo_snd_get?_none _ 0 i (batchFlag cfg r) ?_
  rw [List.get?_map, hr]
  simp [hn]

/-- A request that contributed instances owns a slice of the merged flat
sequence. -/
theorem batch_slice_some_at (cfg : HandlerConfig) (requests : List SimpleRequest)
    (i : Nat) (r : SimpleRequest) (v : JValue) (hr : requests.get? i = some r)
    (hv : outcomeInstances (batchOutcome cfg r) = some v) :
    ∃ a b : Nat, (batchMerge cfg requests).2.get? i = some (some (a, b)) := by
  unfold batchMerge concat_list
  rw [batch_zip_eq]
  refine concatListGo_snd_get?_some _ 0 i v (batchFlag cfg r) ?_
  rw [List.get?_map, hr]
  simp [hv]

/-! ## Pointwise description of the batch responses -/

/-- A request that contributed no instances gets exactly its recorded
fallback response back, at its own position. -/
theorem batch_fallback_at (cfg : HandlerConfig) (requests : List SimpleRequest)
    (func : TFTensor → TFTensor) (i : Nat) (r : SimpleRequest)
    (hr : requests.get? i = some r)
    (hn : outcomeInstances (batchOutcome cfg r) = none) :
    (handle_batch_request cfg requests func).responses.get? i =
      some (outcomeResponse (batchOutcome cfg r)) := by
  rw [handle_batch_request_eq]
  dsimp only
  unfold to_batch_response
  have hsl : (batchMerge cfg requests).2.get? i = some none :=
    batch_slice_none_at cfg requests i r hr hn
  have hfb : (batchFallbacks cfg requests).get? i =
      some (outcomeResponse (batchOutcome cfg r)) := by
    unfold batchFallbacks
    rw [List.get?_map, hr]
    rfl
  rw [List.get?_map, get?_zip_of _ _ i _ _ hsl hfb]
  rfl

/-- A request that contributed instances gets a success response built from a
slice of the combined result, at its own position. -/
theorem batch_sliced_at (cfg : HandlerConfig) (requests : List SimpleRequest)
    (func : TFTensor → TFTensor) (i : Nat) (r : SimpleRequest) (v : JValue)
    (hr : requests.get? i = some r)
    (hv : outcomeInstances (batchOutcome cfg r) = some v) :
    ∃ a b : Nat, (handle_batch_request cfg requests func).responses.get? i =
      some ⟨200, none,
        reprStr (tensorSlice (func (batchTensor cfg requests)) a b)⟩ := by
  rw [handle_batch_request_eq]
  dsimp only
  unfold to_batch_response
  obtain ⟨a, b, hab⟩ := batch_slice_some_at cfg requests i r v hr hv
  have hfb : (batchFallbacks cfg requests).get? i =
      some (outcomeResponse (batchOutcome cfg r)) := by
    unfold batchFallbacks
    rw [List.get?_map, hr]
    rfl
  refine ⟨a, b, ?_⟩
  rw [List.get?_map, get?_zip_of _ _ i _ _ hab hfb]
  rfl

/-- The batch pipeline always answers every request: exactly one response per
incoming request. -/
theorem handle_batch_responses_length (cfg : HandlerConfig)
    (requests : List SimpleRequest) (func : TFTensor → TFTensor) :
    (handle_batch_request cfg requests func).responses.length = requests.length := by
  rw [handle_batch_request_eq]
  dsimp only
  unfold to_batch_response batchMerge concat_list
  rw [List.length_map, List.length_zip, concatListGo_snd_length, List.length_zip]
  unfold batchInstancesList batchFlags batchFallbacks
  simp

/-! ## Claims -/

/-- **C1** (counterexample). The claim states that when every request in a
batch is absent or malformed, the downstream computation `func` is never
invoked. On a batch of two malformed requests the code still reaches
`merged_result = func(parsed_tensor)` unconditionally: every request gets
the 400 fallback, yet the invocation trace of `func` has length one — there
is no short-circuit in `handle_batch_request`. -/
theorem C1_counterexample :
    (handle_batch_request cfgW [reqMalformed, reqMalformed] (fun t => t)).responses =
      [bad_resp, bad_resp] ∧
    (handle_batch_request cfgW [reqMalformed, reqMalformed] (fun t => t)).funcCalls.length
      = 1 :=
  ⟨rfl, rfl⟩

/-- **C1** (amended). If every request in a batch contributes no instances
(absent, malformed, or otherwise bad), `handle_batch_request` returns exactly
the recorded per-request FallbackResponses, one per request; however the
downstream computation `func` is still invoked exactly once, on the tensor
built from the empty merged flat sequence — the batch does not short-circuit
around the invocation. -/
theorem C1_all_fallback (cfg : HandlerConfig) (requests : List SimpleRequest)
    (func : TFTensor → TFTensor)
    (h : ∀ r ∈ requests, outcomeInstances (batchOutcome cfg r) = none) :
    (handle_batch_request cfg requests func).responses =
      requests.map (fun r => outcomeResponse (batchOutcome cfg r)) ∧
    (handle_batch_request cfg requests func).funcCalls = [tf_constant (.arr [])] := by
  rw [handle_batch_request_eq]
  dsimp only
  have hall : ∀ p ∈ (batchInstancesList cfg requests).zip (batchFlags cfg requests),
      p.1 = (none : Option JValue) := by
    rw [batch_zip_eq]
    intro p hp
    obtain ⟨q, hq, rfl⟩ := List.mem_map.mp hp
    exact h q hq
  have hm := concatListGo_all_none _ 0 hall
  have hm1 : (batchMerge cfg requests).1 = [] := by
    unfold batchMerge concat_list
    rw [hm]
  have hm2 : (batchMerge cfg requests).2 =
      requests.map fun _ => (none : Option (Nat × Nat)) := by
    unfold batchMerge concat_list
    rw [hm, batch_zip_eq, List.map_map]
    rfl
  have htensor : batchTensor cfg requests = tf_constant (.arr []) := by
    unfold batchTensor
    rw [hm1]
  constructor
  · rw [hm2]
    unfold batchFallbacks
    exact to_batch_response_all_none _ requests _ requests
  · rw [htensor]

/-- **C1** witness: a batch of one malformed request and one
column-format request — neither contributes instances, both fallbacks come
back and `func` still runs once on the empty batch tensor. -/
theorem C1_witness :
    (handle_batch_request cfgW [reqMalformed, reqInputs] (fun t => t)).responses =
      [reqMalformed, reqInputs].map (fun r => outcomeResponse (batchOutcome cfgW r)) ∧
    (handle_batch_request cfgW [reqMalformed, reqInputs] (fun t => t)).funcCalls =
      [tf_constant (.arr [])] :=
  C1_all_fallback cfgW [reqMalformed, reqInputs] (fun t => t) (by
    intro r hr
    rcases List.mem_cons.mp hr with rfl | hr
    · rfl
    rcases List.mem_cons.mp hr with rfl | hr
    · rfl
    · cases hr)

/-- **C2**. For every batch, in any mix of good and bad requests, exactly one
response comes back per request, and the response at position `i` is
determined by request `i`: either the fallback recorded for it (whose status
is never the success status 200), or a success response sliced from the one
combined output — never both, never neither. -/
theorem C2_batch_shape (cfg : HandlerConfig) (requests : List SimpleRequest)
    (func : TFTensor → TFTensor) (i : Nat) (r : SimpleRequest)
    (hr : requests.get? i = some r) :
    (handle_batch_request cfg requests func).responses.length = requests.length ∧
    ((outcomeInstances (batchOutcome cfg r) = none ∧
        (handle_batch_request cfg requests func).responses.get? i =
          some (outcomeResponse (batchOutcome cfg r)) ∧
        (outcomeResponse (batchOutcome cfg r)).status ≠ 200) ∨
      (∃ (v : JValue) (a b : Nat), outcomeInstances (batchOutcome cfg r) = some v ∧
        (handle_batch_request cfg requests func).responses.get? i =
          some ⟨200, none,
            reprStr (tensorSlice (func (batchTensor cfg requests)) a b)⟩)) := by
  refine ⟨handle_batch_responses_length cfg requests func, ?_⟩
  cases hv : outcomeInstances (batchOutcome cfg r) with
  | none =>
      exact .inl ⟨rfl, batch_fallback_at cfg requests func i r hr hv,
        outcomeResponse_status_ne_200 _⟩
  | some v =>
      obtain ⟨a, b, hab⟩ := batch_sliced_at cfg requests func i r v hr hv
      exact .inr ⟨v, a, b, rfl, hab⟩

/-- **C2** witness: a concrete two-request batch (one good, one malformed)
has exactly two responses. -/
theorem C2_witness :
    (handle_batch_request cfgW [reqGood, reqMalformed] (fun t => t)).responses.length
      = 2 :=
  (C2_batch_shape cfgW [reqGood, reqMalformed] (fun t => t) 0 reqGood rfl).1

/-- **C3**. A request whose body fails to parse gets exactly the recorded
client-error fallback `SimpleResponse(400, None, "input format error")` at
its own position, owns no slice of the merge, and the batch continues: the
remaining requests still each get a response (the response list keeps full
length). -/
theorem C3_parse_error (cfg : HandlerConfig) (requests : List SimpleRequest)
    (func : TFTensor → TFTensor) (i : Nat) (r : SimpleRequest)
    (hr : requests.get? i = some r) (hd : r.data = .decodeError) :
    (handle_batch_request cfg requests func).responses.get? i = some bad_resp ∧
    bad_resp = ⟨400, none, "input format error"⟩ ∧
    (batchMerge cfg requests).2.get? i = some none ∧
    (handle_batch_request cfg requests func).responses.length = requests.length := by
  have hout : batchOutcome cfg r = .parseError := by
    unfold batchOutcome processRequest
    rw [hd]
  have hn : outcomeInstances (batchOutcome cfg r) = none := by rw [hout]; rfl
  refine ⟨?_, rfl, batch_slice_none_at cfg requests i r hr hn,
    handle_batch_responses_length cfg requests func⟩
  have := batch_fallback_at cfg requests func i r hr hn
  rwa [hout] at this

/-- **C3** witness: in the batch `[reqMalformed, reqGood]` the malformed
request at position 0 receives the 400 input-format fallback. -/
theorem C3_witness :
    (handle_batch_request cfgW [reqMalformed, reqGood] (fun t => t)).responses.get? 0 =
      some bad_resp :=
  (C3_parse_error cfgW [reqMalformed, reqGood] (fun t => t) 0 reqMalformed rfl rfl).1

/-- **C4**. A request on which the loop body raises an unexpected exception
`e` (any exception other than the separately-caught JSON/Unicode decode
errors, e.g. the `AttributeError` from `parsed_json.get` on a non-object
document) gets the recorded internal-error fallback
`SimpleResponse(500, None, "Internal Server Error: " + traceback)` at its own
position, owns no slice of the merge, and the batch is not aborted: the
response list keeps full length — `handle_batch_request` is a total function
of its inputs, so the exception is never visible to its caller. -/
theorem C4_internal_error (cfg : HandlerConfig) (requests : List SimpleRequest)
    (func : TFTensor → TFTensor) (i : Nat) (r : SimpleRequest) (e : PyError)
    (hr : requests.get? i = some r)
    (he : batchOutcome cfg r = .internalError e) :
    (handle_batch_request cfg requests func).responses.get? i =
      some ⟨500, none, "Internal Server Error: " ++ pyTraceback e⟩ ∧
    (batchMerge cfg requests).2.get? i = some none ∧
    (handle_batch_request cfg requests func).responses.length = requests.length := by
  have hn : outcomeInstances (batchOutcome cfg r) = none := by rw [he]; rfl
  refine ⟨?_, batch_slice_none_at cfg requests i r hr hn,
    handle_batch_responses_length cfg requests func⟩
  have := batch_fallback_at cfg requests func i r hr hn
  rwa [he] at this

/-- **C4** witness: a request whose body is the JSON array `[1]` (so
`parsed_json.get` raises `AttributeError`) gets the 500 fallback at its
position while the good request still gets a response. -/
theorem C4_witness :
    (handle_batch_request cfgW [reqNonObj, reqGood] (fun t => t)).responses.get? 0 =
      some ⟨500, none, "Internal Server Error: " ++
        pyTraceback (.attributeError ("object has no attribute " ++ "get " ++ "instances"))⟩ :=
  (C4_internal_error cfgW [reqNonObj, reqGood] (fun t => t) 0 reqNonObj
    (.attributeError ("object has no attribute " ++ "get " ++ "instances")) rfl rfl).1

/-- **C5** (counterexample). The claim states that every request whose
payload uses the column-oriented `inputs` field (with no `instances` field)
receives the not-implemented status 501. The request with body
`\x7b"inputs": []\x7d` uses the `inputs` field and provides no `instances`
field, yet the batch pipeline answers it with the 400 input-format fallback,
not 501: the `elif parsed_json.get("inputs"):` branch tests Python
truthiness, and an empty list is falsy. -/
theorem C5_counterexample :
    (handle_batch_request cfgW [reqInputsFalsy] (fun t => t)).responses =
      [⟨400, none, "input format error"⟩] :=
  rfl

/-- **C5** (amended). Every request whose parsed payload carries a *truthy*
`inputs` value while its `instances` field is absent or null receives the
distinct not-implemented fallback
`SimpleResponse(501, None, "Column format 'inputs' not implemented")` and
owns no slice of the merge; a falsy `inputs` value falls through to the 400
input-format fallback instead. The other requests are unaffected: each still
receives its own response (its recorded fallback when it contributed no
instances, a sliced success response otherwise). -/
theorem C5_amended (cfg : HandlerConfig) (requests : List SimpleRequest)
    (func : TFTensor → TFTensor) (i : Nat) (r : SimpleRequest)
    (fs : List (String × JValue))
    (hr : requests.get? i = some r)
    (hb : r.data = .parsed (.obj fs))
    (hinst : objGet fs "instances" = .null)
    (hinp : truthy (objGet fs "inputs") = true) :
    (handle_batch_request cfg requests func).responses.get? i =
      some ⟨501, none, "Column format " ++ "inputs" ++ " not implemented"⟩ ∧
    (batchMerge cfg requests).2.get? i = some none ∧
    (∀ (j : Nat) (s : SimpleRequest), requests.get? j = some s →
      outcomeInstances (batchOutcome cfg s) = none →
        (handle_batch_request cfg requests func).responses.get? j =
          some (outcomeResponse (batchOutcome cfg s))) ∧
    (∀ (j : Nat) (s : SimpleRequest) (v : JValue), requests.get? j = some s →
      outcomeInstances (batchOutcome cfg s) = some v →
        ∃ a b : Nat, (handle_batch_request cfg requests func).responses.get? j =
          some ⟨200, none,
            reprStr (tensorSlice (func (batchTensor cfg requests)) a b)⟩) := by
  have hout : batchOutcome cfg r = .notImplemented := by
    unfold batchOutcome processRequest
    rw [hb]
    simp [tryHandleBody, pyGet, hinst, hinp, isNone]
  have hn : outcomeInstances (batchOutcome cfg r) = none := by rw [hout]; rfl
  refine ⟨?_, batch_slice_none_at cfg requests i r hr hn,
    fun j s hs hns => batch_fallback_at cfg requests func j s hs hns,
    fun j s v hs hvs => batch_sliced_at cfg requests func j s v hs hvs⟩
  have := batch_fallback_at cfg requests func i r hr hn
  rwa [hout] at this

/-- **C5** witness: the request with body
`\x7b"inputs": \x7b"x": [1]\x7d\x7d` receives the 501 fallback. -/
theorem C5_witness :
    (handle_batch_request cfgW [reqInputs] (fun t => t)).responses.get? 0 =
      some ⟨501, none, "Column format " ++ "inputs" ++ " not implemented"⟩ :=
  (C5_amended cfgW [reqInputs] (fun t => t) 0 reqInputs
    [("inputs", .obj [("x", .arr [.num 1])])] rfl rfl rfl rfl).1

/-- **C6**. The per-request `BatchFlag` derives from the override header
(looked up under the lowercased configured name in `formated_headers`):
value `"true"` yields `true`, value `"false"` yields `false`, and when the
header is absent the flag defaults to the pipeline-wide `is_batch_input`
configuration value. -/
theorem C6_batch_flag (cfg : HandlerConfig) (req : SimpleRequest) :
    (headersFind? req.formated_headers (strLower cfg.batch_request_header) = some "true" →
      batchFlag cfg req = true) ∧
    (headersFind? req.formated_headers (strLower cfg.batch_request_header) = some "false" →
      batchFlag cfg req = false) ∧
    (headersFind? req.formated_headers (strLower cfg.batch_request_header) = none →
      batchFlag cfg req = cfg.is_batch_input) := by
  have hflag := processRequest_fst cfg req
  refine ⟨fun h => ?_, fun h => ?_, fun h => ?_⟩ <;>
    unfold batchFlag <;> rw [hflag] <;> unfold headersGet <;> rw [h]
  · rfl
  · rfl
  · cases cfg.is_batch_input <;> rfl

/-- **C6** witness: the three header situations on concrete requests. -/
theorem C6_witness :
    batchFlag cfgW ⟨.decodeError, [("mb-request-batch", "true")]⟩ = true ∧
    batchFlag cfgW ⟨.decodeError, [("mb-request-batch", "false")]⟩ = false ∧
    batchFlag cfgW ⟨.decodeError, []⟩ = cfgW.is_batch_input :=
  ⟨(C6_batch_flag cfgW ⟨.decodeError, [("mb-request-batch", "true")]⟩).1 (by decide),
   (C6_batch_flag cfgW ⟨.decodeError, [("mb-request-batch", "false")]⟩).2.1 (by decide),
   (C6_batch_flag cfgW ⟨.decodeError, []⟩).2.2 (by decide)⟩

/-- **C7**. In the single-request pipeline a request whose declared content
type is not `"application/json"` fails immediately with the input-validation
error — `BadInput` for HTTP, `BentoMLException` for the lambda event path —
whatever the body and the computation are: the body is never decoded and
`func` is never invoked, so no partial processing occurs. -/
theorem C7_content_type_gate :
    (∀ (request : HTTPRequest) (func : TFTensor → TFTensor),
      request.content_type ≠ "application/json" →
        handle_request request func = .error (.badInput
          "Request content-type must be application/json for this BentoService API")) ∧
    (∀ (event : LambdaEvent) (func : TFTensor → TFTensor) (ct : String),
      headersFind? event.headers "Content-Type" = some ct →
      ct ≠ "application/json" →
        handle_aws_lambda_event event func = .error (.bentoMLException
          ("BentoML currently does not support Content-Type: " ++ ct
            ++ " for AWS Lambda"))) := by
  constructor
  · intro request func h
    unfold handle_request
    rw [if_neg h]
  · intro event func ct h hne
    unfold handle_aws_lambda_event
    have hget : headersGet event.headers "Content-Type" "" = ct := by
      unfold headersGet
      rw [h]
    rw [hget, if_neg hne, h]

/-- **C7** witness: a `text/csv` HTTP request and a `text/csv` lambda event
both fail with the respective input-validation errors. -/
theorem C7_witness :
    handle_request ⟨"text/csv", .parsed (.obj [])⟩ (fun t => t) = .error (.badInput
      "Request content-type must be application/json for this BentoService API") ∧
    handle_aws_lambda_event ⟨[("Content-Type", "text/csv")], .decodeError⟩ (fun t => t) =
      .error (.bentoMLException
        ("BentoML currently does not support Content-Type: text/csv for AWS Lambda")) :=
  ⟨C7_content_type_gate.1 ⟨"text/csv", .parsed (.obj [])⟩ (fun t => t) (by decide),
   C7_content_type_gate.2 ⟨[("Content-Type", "text/csv")], .decodeError⟩ (fun t => t)
     "text/csv" rfl (by decide)⟩

/-- **C8**. For every batch call, the invocation trace of the downstream
computation `func` is exactly one call, whose sole argument is the single
combined tensor built (`tf.constant`) from the merged flat sequence, and the
response list is the demultiplexer applied to `func`'s output unchanged. -/
theorem C8_single_invocation (cfg : HandlerConfig) (requests : List SimpleRequest)
    (func : TFTensor → TFTensor) :
    (handle_batch_request cfg requests func).funcCalls = [batchTensor cfg requests] ∧
    batchTensor cfg requests = tf_constant (.arr (batchMerge cfg requests).1) ∧
    (handle_batch_request cfg requests func).responses =
      to_batch_response (func (batchTensor cfg requests)) (batchMerge cfg requests).2
        (batchFallbacks cfg requests) requests := by
  rw [handle_batch_request_eq]
  exact ⟨rfl, rfl, rfl⟩

/-- **C9**. In the single-request pipeline, a payload that parses to a JSON
object with neither a non-null `instances` field nor a truthy `inputs` field
reaches `return func(parsed_tensor)` with the local `parsed_tensor` never
assigned: `_handle_raw_str` fails with `UnboundLocalError` — an unhandled
local-variable error, not a structured input-format error — and
`handle_request`, `handle_cli` and `handle_aws_lambda_event` all propagate
exactly this failure. -/
theorem C9_unbound_local (fs : List (String × JValue)) (func : TFTensor → TFTensor)
    (unknown : List String)
    (hinst : objGet fs "instances" = .null)
    (hinp : truthy (objGet fs "inputs") = false) :
    handleRawStr (.parsed (.obj fs)) func = .error (.unboundLocalError "parsed_tensor") ∧
    handle_request ⟨"application/json", .parsed (.obj fs)⟩ func =
      .error (.raised (.unboundLocalError "parsed_tensor")) ∧
    handle_cli ⟨.parsed (.obj fs), unknown⟩ func =
      .error (.unboundLocalError "parsed_tensor") ∧
    handle_aws_lambda_event ⟨[("Content-Type", "application/json")], .parsed (.obj fs)⟩
      func = .error (.raised (.unboundLocalError "parsed_tensor")) := by
  have hraw : handleRawStr (.parsed (.obj fs)) func =
      .error (.unboundLocalError "parsed_tensor") := by
    unfold handleRawStr
    simp [pyGet, hinst, hinp, isNone]
  refine ⟨hraw, ?_, ?_, ?_⟩
  · unfold handle_request
    rw [if_pos rfl, hraw]
  · unfold handle_cli
    rw [hraw]
  · unfold handle_aws_lambda_event
    rw [show headersGet [("Content-Type", "application/json")] "Content-Type" ""
          = "application/json" from rfl,
        if_pos rfl, hraw]

/-- **C9** witness: the empty JSON object `\x7b\x7d` triggers the unbound
local failure on all three channel adapters. -/
theorem C9_witness :
    handleRawStr (.parsed (.obj [])) (fun t => t) =
      .error (.unboundLocalError "parsed_tensor") ∧
    handle_request ⟨"application/json", .parsed (.obj [])⟩ (fun t => t) =
      .error (.raised (.unboundLocalError "parsed_tensor")) ∧
    handle_cli ⟨.parsed (.obj []), []⟩ (fun t => t) =
      .error (.unboundLocalError "parsed_tensor") ∧
    handle_aws_lambda_event ⟨[("Content-Type", "application/json")], .parsed (.obj [])⟩
      (fun t => t) = .error (.raised (.unboundLocalError "parsed_tensor")) :=
  C9_unbound_local [] (fun t => t) [] rfl rfl

/-- **C10**. In both pipelines, whenever the parsed object carries a non-null
`instances` value, the row-oriented `instances` path is taken regardless of
the `inputs` field (so `inputs` is ignored even when both are present), and
conversely the not-implemented outcome occurs only when `instances` is
absent or null. -/
theorem C10_instances_precedence :
    (∀ (fs : List (String × JValue)) (func : TFTensor → TFTensor),
      isNone (objGet fs "instances") = false →
        handleRawStr (.parsed (.obj fs)) func =
          .ok (func (tf_constant (decode_b64_if_needed (objGet fs "instances")))) ∧
        tryHandleBody (.obj fs) = .good (decode_b64_if_needed (objGet fs "instances"))) ∧
    (∀ (fs : List (String × JValue)) (func : TFTensor → TFTensor) (msg : String),
      handleRawStr (.parsed (.obj fs)) func = .error (.notImplementedError msg) →
        objGet fs "instances" = .null) ∧
    (∀ fs : List (String × JValue),
      tryHandleBody (.obj fs) = .notImplemented → objGet fs "instances" = .null) := by
  refine ⟨fun fs func h => ⟨?_, ?_⟩, fun fs func msg h => ?_, fun fs h => ?_⟩
  · unfold handleRawStr
    simp [pyGet, h]
  · unfold tryHandleBody
    simp [pyGet, h]
  · by_cases hn : isNone (objGet fs "instances") = true
    · exact isNone_eq_null _ hn
    · exfalso
      unfold handleRawStr at h
      simp [pyGet, eq_false_of_ne_true hn] at h
  · by_cases hn : isNone (objGet fs "instances") = true
    · exact isNone_eq_null _ hn
    · exfalso
      unfold tryHandleBody at h
      simp [pyGet, eq_false_of_ne_true hn] at h

/-- **C10** witness: a payload carrying both `instances` and a truthy
`inputs` takes the `instances` path in both pipelines. -/
theorem C10_witness :
    handleRawStr
        (.parsed (.obj [("instances", .arr [.num 1]), ("inputs", .arr [.num 2])]))
        (fun t => t) =
      .ok (tf_constant (.arr [.num 1])) ∧
    tryHandleBody (.obj [("instances", .arr [.num 1]), ("inputs", .arr [.num 2])]) =
      .good (.arr [.num 1]) :=
  C10_instances_precedence.1
    [("instances", .arr [.num 1]), ("inputs", .arr [.num 2])] (fun t => t) rfl

end TFHandler
